import Mathlib

/-!
Shallow embedding of the two RedShift desktop helper scripts
(`scripts/list-device-files.py` and `scripts/get-device-name.py`).

Each script is a thin caller into the pymobiledevice3 library.  The library
is modelled as an environment record whose operations are `Except`-valued:
`Except.error e` stands for the Python call raising an exception whose
`str(e)` is the carried string, `Except.ok v` for a normal return.  Each
script is embedded as a function from such an environment to the pair
(structured line printed on stdout, process exit code).
-/

namespace RedshiftScripts

/-- Result of a successful `stat` call as consumed by the lister:
the AFC stat dictionary's `st_ifmt` (file-type name, e.g. "S_IFREG")
and `st_size` (size in bytes) keys. -/
structure StatInfo where
  st_ifmt : String
  st_size : Nat
deriving DecidableEq

/-- One element of the lister's output array: `{'name': item,
'size': info['st_size'], 'path': file_path}`. -/
structure FileEntry where
  name : String
  size : Nat
  path : String
deriving DecidableEq

/-- What `list-device-files.py` prints on stdout: either a JSON array of
file entries or the JSON object `{'error': ..., 'message': ...}`. -/
inductive ListerOut where
  | arr (files : List FileEntry)
  | errRec (error : String) (message : String)
deriving DecidableEq

/-- Model of a successfully constructed `HouseArrestService`: the two
operations the script calls on it.  `Except.error` models the call raising. -/
structure HouseArrest where
  listdir : String → Except String (List String)
  stat : String → Except String StatInfo

/-- Environment for `list-device-files.py`: whether the pymobiledevice3
module loads, and the behaviour of each library constructor the script
invokes.  `houseArrestService` is a function of the bundle id passed to it. -/
structure ListerEnv where
  importOk : Bool
  create_using_usbmux : Except String Unit
  afcService : Except String Unit
  houseArrestService : String → Except String HouseArrest

/-- Embedding of Python's `str.startswith(p)`: the characters of `p` are a
prefix of the characters of `s`.  (Stated on character lists so that it
evaluates on concrete strings.) -/
def pyStartsWith (s p : String) : Bool :=
  p.data.isPrefixOf s.data

/-- Embedding of Python's `str.endswith(p)`: the characters of `p` are a
suffix of the characters of `s`. -/
def pyEndsWith (s p : String) : Bool :=
  p.data.isSuffixOf s.data

/-- Embedding of Python's `os.path.join(a, b)` for a single POSIX join:
an absolute second component replaces the first; otherwise the components
are concatenated with a single separator. -/
def osPathJoin (a b : String) : String :=
  if pyStartsWith b "/" then b
  else if a = "" ∨ pyEndsWith a "/" then a ++ b
  else a ++ "/" ++ b

/-- Embedding of the per-item body of the lister's loop: skip hidden names,
stat the joined path (a raised exception skips the item), and keep the item
only when the stat reports a regular file. -/
def processItem (ha : HouseArrest) (remote_path item : String) : Option FileEntry :=
  if pyStartsWith item "." then none
  else
    let file_path := osPathJoin remote_path item
    match ha.stat file_path with
    | .error _ => none
    | .ok info =>
      if info.st_ifmt = "S_IFREG" then
        some { name := item, size := info.st_size, path := file_path }
      else none

/-- Embedding of `list_app_files(bundle_id, remote_path)`: the outer
`try` turns a raising `create_using_usbmux` or `AfcService` constructor
into `([], 0)`; a raising `HouseArrestService` constructor is caught by the
inner handler and yields the APP_NOT_INSTALLED record with exit code 1;
a raising `listdir` is caught and yields the empty list; otherwise the
items are filtered by `processItem` in listing order. -/
def list_app_files (env : ListerEnv) (bundle_id remote_path : String) :
    ListerOut × Nat :=
  match env.create_using_usbmux with
  | .error _ => (.arr [], 0)
  | .ok _ =>
    match env.afcService with
    | .error _ => (.arr [], 0)
    | .ok _ =>
      match env.houseArrestService bundle_id with
      | .error e => (.errRec "APP_NOT_INSTALLED" e, 1)
      | .ok house_arrest =>
        let files : List FileEntry :=
          match house_arrest.listdir remote_path with
          | .error _ => []
          | .ok items => items.filterMap (processItem house_arrest remote_path)
        (.arr files, 0)

/-- Embedding of the whole `list-device-files.py` invocation: a failing
module-level import prints `[]` and exits 0; otherwise `list_app_files`
runs with the fixed bundle id and remote path. -/
def runLister (env : ListerEnv) : ListerOut × Nat :=
  if env.importOk then list_app_files env "com.redshiftplayer.mobile" "Documents/Music"
  else (.arr [], 0)

/-- Model of a Python value as stored in the lockdown property dictionary:
`None` or a string.  (The two properties the identity script reads,
`DeviceName` and `ProductType`, are string-valued when present.) -/
inductive PyValue where
  | none
  | str (s : String)
deriving DecidableEq

/-- Python truthiness for the modelled values: `None` and the empty string
are falsy, every other string is truthy. -/
def PyValue.truthy : PyValue → Bool
  | .none => false
  | .str s => s != ""

/-- Embedding of Python's `a or b` on modelled values: the left operand if
truthy, otherwise the right operand as-is. -/
def pyOr (a b : PyValue) : PyValue :=
  if a.truthy then a else b

/-- Model of a connected `LockdownClient`: the `display_name` property read
and the `get_value(key=...)` call, each of which may raise. -/
structure Lockdown where
  display_name : Except String PyValue
  get_value : String → Except String PyValue

/-- Environment for `get-device-name.py`: whether the pymobiledevice3 import
succeeds and the behaviour of `create_using_usbmux()`. -/
structure NameEnv where
  importOk : Bool
  create_using_usbmux : Except String Lockdown

/-- What `get-device-name.py` prints on stdout: the success object
`{'name': ..., 'model': ..., 'success': True}`, the two-field error object,
or the one-field error object (no `message` key). -/
inductive NameOut where
  | success (name : PyValue) (model : PyValue)
  | errMsg (error : String) (message : String)
  | errOnly (error : String)
deriving DecidableEq

/-- Embedding of the line
`device_name = lockdown.display_name or lockdown.get_value(key='DeviceName')`:
a raising property read propagates; otherwise `get_value` is consulted only
when `display_name` is falsy, and its result is taken as-is. -/
def displayNameOr (lockdown : Lockdown) : Except String PyValue :=
  match lockdown.display_name with
  | .error e => .error e
  | .ok dn => if dn.truthy then .ok dn else lockdown.get_value "DeviceName"

/-- Embedding of `get_device_name()`: any exception raised while connecting
or reading a property is caught by the single handler, which prints the
NO_DEVICE record carrying `str(e)` and returns 1; on success the model
falls back to the fixed placeholder whenever `ProductType` is falsy. -/
def get_device_name (env : NameEnv) : NameOut × Nat :=
  match env.create_using_usbmux with
  | .error e => (.errMsg "NO_DEVICE" e, 1)
  | .ok lockdown =>
    match displayNameOr lockdown with
    | .error e => (.errMsg "NO_DEVICE" e, 1)
    | .ok device_name =>
      match lockdown.get_value "ProductType" with
      | .error e => (.errMsg "NO_DEVICE" e, 1)
      | .ok pt =>
        (.success device_name (pyOr pt (.str "iOS Device")), 0)

/-- Embedding of the whole `get-device-name.py` invocation: a failing
module-level import prints `{'error': 'NO_PYMOBILEDEVICE3'}` and exits 1;
otherwise `get_device_name` runs. -/
def runName (env : NameEnv) : NameOut × Nat :=
  if env.importOk then get_device_name env
  else (.errOnly "NO_PYMOBILEDEVICE3", 1)

/-- Characterisation of one loop iteration: `processItem` produces an entry
exactly when the item is not hidden, its stat succeeds, and the stat reports
a regular file; the entry then carries the item name, the stat size, and the
joined path. -/
theorem processItem_eq_some_iff (ha : HouseArrest) (rp item : String)
    (e : FileEntry) :
    processItem ha rp item = some e ↔
      pyStartsWith item "." = false ∧
      ∃ info, ha.stat (osPathJoin rp item) = .ok info ∧
        info.st_ifmt = "S_IFREG" ∧
        e = { name := item, size := info.st_size, path := osPathJoin rp item } := by
  constructor
  · intro h
    unfold processItem at h
    dsimp only at h
    split at h
    · exact absurd h (by simp)
    next hhid =>
      split at h
      next msg heq => exact absurd h (by simp)
      next info heq =>
        split at h
        next hreg =>
          exact ⟨by simpa using hhid, info, heq, hreg,
            (Option.some_inj.mp h).symm⟩
        next hreg => exact absurd h (by simp)
  · rintro ⟨hhid, info, hstat, hreg, rfl⟩
    unfold processItem
    simp [hhid, hstat, hreg]

/-- Shared run-level description of the lister's success path: when import,
connection and both service constructors succeed and the directory listing
returns `items`, the run prints the array obtained by filtering `items`
through `processItem`, with exit code 0. -/
theorem runLister_listdir_ok
    (env : ListerEnv) (ha : HouseArrest) (items : List String)
    (himp : env.importOk = true)
    (hconn : env.create_using_usbmux = .ok ())
    (hafc : env.afcService = .ok ())
    (hha : env.houseArrestService "com.redshiftplayer.mobile" = .ok ha)
    (hlist : ha.listdir "Documents/Music" = .ok items) :
    runLister env = (.arr (items.filterMap (processItem ha "Documents/Music")), 0) := by
  simp [runLister, list_app_files, himp, hconn, hafc, hha, hlist]

/-- Hidden-listing demo environment used to witness the lister claims: a
house-arrest service whose `Documents/Music` listing is
`[".DS_Store", "track1.mp3", "covers"]`, where `track1.mp3` stats as a
regular file of 1000 bytes and `covers` as a directory. -/
def demoHA : HouseArrest where
  listdir := fun p =>
    if p = "Documents/Music" then .ok [".DS_Store", "track1.mp3", "covers"]
    else .error "directory missing"
  stat := fun p =>
    if p = "Documents/Music/track1.mp3" then .ok { st_ifmt := "S_IFREG", st_size := 1000 }
    else if p = "Documents/Music/covers" then .ok { st_ifmt := "S_IFDIR", st_size := 96 }
    else .error "stat failed"

/-- Lister environment for the end-to-end demo: import, connection and both
service constructors succeed, and house arrest exposes `demoHA`. -/
def demoEnv : ListerEnv where
  importOk := true
  create_using_usbmux := .ok ()
  afcService := .ok ()
  houseArrestService := fun b =>
    if b = "com.redshiftplayer.mobile" then .ok demoHA else .error "bundle unknown"

/-- C1: when the directory listing succeeds, the lister prints the filtered
array with exit code 0, and an entry is in that array iff some listed item
is not hidden, stats successfully, and is reported a regular file, the entry
carrying the item's name, the stat's size, and the joined path. -/
theorem c1_lister_success_characterisation
    (env : ListerEnv) (ha : HouseArrest) (items : List String)
    (himp : env.importOk = true)
    (hconn : env.create_using_usbmux = .ok ())
    (hafc : env.afcService = .ok ())
    (hha : env.houseArrestService "com.redshiftplayer.mobile" = .ok ha)
    (hlist : ha.listdir "Documents/Music" = .ok items) :
    runLister env = (.arr (items.filterMap (processItem ha "Documents/Music")), 0) ∧
    ∀ e : FileEntry,
      e ∈ items.filterMap (processItem ha "Documents/Music") ↔
        ∃ item ∈ items, pyStartsWith item "." = false ∧
          ∃ info, ha.stat (osPathJoin "Documents/Music" item) = .ok info ∧
            info.st_ifmt = "S_IFREG" ∧
            e = { name := item, size := info.st_size,
                  path := osPathJoin "Documents/Music" item } := by
  constructor
  · exact runLister_listdir_ok env ha items himp hconn hafc hha hlist
  · intro e
    rw [List.mem_filterMap]
    constructor
    · rintro ⟨item, hmem, hsome⟩
      rw [processItem_eq_some_iff] at hsome
      exact ⟨item, hmem, hsome⟩
    · rintro ⟨item, hmem, hrest⟩
      exact ⟨item, hmem, (processItem_eq_some_iff ha _ item e).mpr hrest⟩

/-- Witness for C1: on the demo environment the lister prints exactly the
single entry for `track1.mp3` with exit code 0 (`.DS_Store` is hidden and
`covers` is a directory). -/
theorem c1_lister_success_characterisation_witness :
    runLister demoEnv =
      (.arr [{ name := "track1.mp3", size := 1000,
               path := "Documents/Music/track1.mp3" }], 0) := by
  have h := c1_lister_success_characterisation demoEnv demoHA
    [".DS_Store", "track1.mp3", "covers"] rfl rfl rfl (by simp [demoEnv]) (by simp [demoHA])
  rw [h.1]
  decide

/-- C2: an entry whose name begins with a period is dropped by the loop body
no matter what the stat oracle would answer (the universally quantified
`ha` shows the metadata is never consulted), and consequently no entry of
the printed array has a name beginning with a period. -/
theorem c2_hidden_entries_never_output (ha : HouseArrest) (rp : String) :
    (∀ item : String, pyStartsWith item "." = true → processItem ha rp item = none) ∧
    (∀ (items : List String) (e : FileEntry),
      e ∈ items.filterMap (processItem ha rp) → pyStartsWith e.name "." = false) := by
  constructor
  · intro item h
    unfold processItem
    simp [h]
  · intro items e he
    rw [List.mem_filterMap] at he
    obtain ⟨item, _, hsome⟩ := he
    rw [processItem_eq_some_iff] at hsome
    obtain ⟨hhid, info, _, _, rfl⟩ := hsome
    exact hhid

/-- Witness for C2: the hidden entry `.DS_Store` of the demo listing is
dropped even though the demo stat oracle would answer with an error for it. -/
theorem c2_hidden_entries_never_output_witness :
    processItem demoHA "Documents/Music" ".DS_Store" = none :=
  (c2_hidden_entries_never_output demoHA "Documents/Music").1 ".DS_Store" (by decide)

/-- C3: when the stat of one non-hidden listed entry raises, only that
entry is skipped: the run still prints the filtered entries of everything
before and after it, in order, with exit code 0. -/
theorem c3_stat_failure_skips_only_that_entry
    (env : ListerEnv) (ha : HouseArrest) (pre post : List String) (bad msg : String)
    (himp : env.importOk = true)
    (hconn : env.create_using_usbmux = .ok ())
    (hafc : env.afcService = .ok ())
    (hha : env.houseArrestService "com.redshiftplayer.mobile" = .ok ha)
    (hlist : ha.listdir "Documents/Music" = .ok (pre ++ bad :: post))
    (hhid : pyStartsWith bad "." = false)
    (hstat : ha.stat (osPathJoin "Documents/Music" bad) = .error msg) :
    runLister env =
      (.arr (pre.filterMap (processItem ha "Documents/Music") ++
             post.filterMap (processItem ha "Documents/Music")), 0) := by
  rw [runLister_listdir_ok env ha _ himp hconn hafc hha hlist]
  have hbad : processItem ha "Documents/Music" bad = none := by
    unfold processItem
    simp [hhid, hstat]
  rw [List.filterMap_append, List.filterMap_cons, hbad]

/-- House-arrest oracle for the C3 witness: three listed tracks of which
the middle one fails to stat while the two others stat as regular files. -/
def c3HA : HouseArrest where
  listdir := fun p =>
    if p = "Documents/Music" then .ok ["good.mp3", "bad.mp3", "other.mp3"]
    else .error "directory missing"
  stat := fun p =>
    if p = "Documents/Music/good.mp3" then .ok { st_ifmt := "S_IFREG", st_size := 500 }
    else if p = "Documents/Music/other.mp3" then .ok { st_ifmt := "S_IFREG", st_size := 42 }
    else .error "device error"

/-- Lister environment for the C3 witness. -/
def c3Env : ListerEnv where
  importOk := true
  create_using_usbmux := .ok ()
  afcService := .ok ()
  houseArrestService := fun _ => .ok c3HA

/-- Witness for C3: with `bad.mp3` failing to stat, the run still prints
the entries for `good.mp3` and `other.mp3`, in listing order, and exits 0. -/
theorem c3_stat_failure_skips_only_that_entry_witness :
    runLister c3Env =
      (.arr [{ name := "good.mp3", size := 500, path := "Documents/Music/good.mp3" },
             { name := "other.mp3", size := 42, path := "Documents/Music/other.mp3" }], 0) := by
  have h := c3_stat_failure_skips_only_that_entry c3Env c3HA
    ["good.mp3"] ["other.mp3"] "bad.mp3" "device error"
    rfl rfl rfl rfl (by rfl) (by decide) (by rfl)
  rw [h]
  decide

/-- C4: with the library imported, a raising `create_using_usbmux`, a
raising `AfcService` constructor, and a raising `listdir` each make the run
print the empty array with exit code 0 — never an error record. -/
theorem c4_failures_yield_empty_array (env : ListerEnv) (himp : env.importOk = true) :
    (∀ e, env.create_using_usbmux = .error e → runLister env = (.arr [], 0)) ∧
    (∀ e, env.create_using_usbmux = .ok () → env.afcService = .error e →
      runLister env = (.arr [], 0)) ∧
    (∀ ha e, env.create_using_usbmux = .ok () → env.afcService = .ok () →
      env.houseArrestService "com.redshiftplayer.mobile" = .ok ha →
      ha.listdir "Documents/Music" = .error e → runLister env = (.arr [], 0)) := by
  refine ⟨?_, ?_, ?_⟩
  · intro e hconn
    simp [runLister, list_app_files, himp, hconn]
  · intro e hconn hafc
    simp [runLister, list_app_files, himp, hconn, hafc]
  · intro ha e hconn hafc hha hlist
    simp [runLister, list_app_files, himp, hconn, hafc, hha, hlist]

/-- Lister environment for the C4 witness: the device connection raises. -/
def c4Env : ListerEnv where
  importOk := true
  create_using_usbmux := .error "No device found"
  afcService := .ok ()
  houseArrestService := fun _ => .error "unreachable"

/-- Witness for C4: a raising connection yields `[]` with exit code 0. -/
theorem c4_failures_yield_empty_array_witness :
    runLister c4Env = (.arr [], 0) :=
  (c4_failures_yield_empty_array c4Env rfl).1 "No device found" rfl

/-- Environment refuting the non-empty-message part of C5: the house-arrest
constructor raises an exception whose text (`str(e)`) is empty. -/
def c5BadEnv : ListerEnv where
  importOk := true
  create_using_usbmux := .ok ()
  afcService := .ok ()
  houseArrestService := fun _ => .error ""

/-- Counterexample for C5: when the house-arrest exception text is empty the
printed record's `message` is the empty string, not a non-empty one. -/
theorem c5_counterexample :
    runLister c5BadEnv = (.errRec "APP_NOT_INSTALLED" "", 1) := by
  rfl

/-- Amended C5: when the house-arrest service cannot be opened, the run
prints exactly one record with error `APP_NOT_INSTALLED` and `message` equal
to the exception text (possibly empty), and exits with code 1. -/
theorem c5_app_not_installed_amended (env : ListerEnv) (e : String)
    (himp : env.importOk = true)
    (hconn : env.create_using_usbmux = .ok ())
    (hafc : env.afcService = .ok ())
    (hha : env.houseArrestService "com.redshiftplayer.mobile" = .error e) :
    runLister env = (.errRec "APP_NOT_INSTALLED" e, 1) := by
  simp [runLister, list_app_files, himp, hconn, hafc, hha]

/-- Lister environment for the amended C5 witness. -/
def c5Env : ListerEnv where
  importOk := true
  create_using_usbmux := .ok ()
  afcService := .ok ()
  houseArrestService := fun _ => .error "InstallationLookupFailed"

/-- Witness for amended C5: a raising house-arrest constructor yields the
APP_NOT_INSTALLED record carrying its exception text, with exit code 1. -/
theorem c5_app_not_installed_amended_witness :
    runLister c5Env = (.errRec "APP_NOT_INSTALLED" "InstallationLookupFailed", 1) :=
  c5_app_not_installed_amended c5Env "InstallationLookupFailed" rfl rfl rfl rfl

/-- C6: when the pymobiledevice3 import fails the lister prints `[]` and
exits 0, whatever the rest of the environment would do — in particular the
result is unchanged under any replacement of the connection behaviour,
so no device connection is consulted. -/
theorem c6_lister_import_failure (env : ListerEnv) (h : env.importOk = false) :
    runLister env = (.arr [], 0) ∧
    ∀ conn, runLister { env with create_using_usbmux := conn } = (.arr [], 0) := by
  constructor
  · simp [runLister, h]
  · intro conn
    simp [runLister, h]

/-- Lister environment for the C6 witness: the import fails, and every
library operation would raise if it were consulted. -/
def c6Env : ListerEnv where
  importOk := false
  create_using_usbmux := .error "ImportError"
  afcService := .error "ImportError"
  houseArrestService := fun _ => .error "ImportError"

/-- Witness for C6: the failing import yields `[]` with exit code 0. -/
theorem c6_lister_import_failure_witness :
    runLister c6Env = (.arr [], 0) :=
  (c6_lister_import_failure c6Env rfl).1

/-- Helper for C7: falling back on the fixed placeholder always leaves a
non-empty string in the model slot, whatever the ProductType value was. -/
theorem pyOr_placeholder_truthy (pt : PyValue) :
    ∃ s, pyOr pt (.str "iOS Device") = .str s ∧ s ≠ "" := by
  unfold pyOr
  cases pt with
  | none => exact ⟨"iOS Device", rfl, by decide⟩
  | str s =>
    by_cases hs : s = ""
    · subst hs
      exact ⟨"iOS Device", by simp [PyValue.truthy], by decide⟩
    · refine ⟨s, ?_, hs⟩
      simp [PyValue.truthy, hs]

/-- Lockdown model for the C7 witness: the device is named `MyPhone` and
reading `ProductType` returns `None`. -/
def c7Lockdown : Lockdown where
  display_name := .ok (.str "MyPhone")
  get_value := fun k => if k = "ProductType" then .ok .none else .error "unknown key"

/-- Identity-query environment for the C7 witness. -/
def c7Env : NameEnv where
  importOk := true
  create_using_usbmux := .ok c7Lockdown

/-- C7: every success record carries a non-empty string in the model slot,
and whenever the `ProductType` read returns a falsy value the model is
exactly the fixed placeholder string. -/
theorem c7_model_never_empty :
    (∀ (env : NameEnv) (n m : PyValue), runName env = (.success n m, 0) →
      ∃ s, m = .str s ∧ s ≠ "") ∧
    (∀ (env : NameEnv) (lockdown : Lockdown) (n pt : PyValue),
      env.importOk = true →
      env.create_using_usbmux = .ok lockdown →
      displayNameOr lockdown = .ok n →
      lockdown.get_value "ProductType" = .ok pt →
      pt.truthy = false →
      runName env = (.success n (.str "iOS Device"), 0)) := by
  constructor
  · intro env n m h
    unfold runName at h
    split at h
    · unfold get_device_name at h
      split at h
      · simp at h
      next lockdown heq =>
        split at h
        · simp at h
        next dn heq2 =>
          split at h
          · simp at h
          next pt heq3 =>
            injection h with h1 h2
            cases h1
            exact pyOr_placeholder_truthy pt
    · simp at h
  · intro env lockdown n pt himp hconn hdno hpt hfalsy
    simp [runName, get_device_name, himp, hconn, hdno, hpt, pyOr, hfalsy]

/-- Witness for C7: a device named `MyPhone` whose `ProductType` read
returns `None` yields the success record with the placeholder model and
exit code 0. -/
theorem c7_model_never_empty_witness :
    runName c7Env = (.success (.str "MyPhone") (.str "iOS Device"), 0) :=
  c7_model_never_empty.2 c7Env c7Lockdown (.str "MyPhone") .none
    rfl rfl (by rfl) (by rfl) rfl

/-- Environment refuting the non-empty-message part of C8: the connection
raises an exception whose text (`str(e)`) is empty. -/
def c8BadEnv : NameEnv where
  importOk := true
  create_using_usbmux := .error ""

/-- Counterexample for C8: when the connection exception text is empty the
printed NO_DEVICE record's `message` is the empty string. -/
theorem c8_counterexample :
    runName c8BadEnv = (.errMsg "NO_DEVICE" "", 1) := by
  rfl

/-- Amended C8: whenever the connection or any property read raises, the
run prints one record with error `NO_DEVICE` and `message` equal to the
exception text (possibly empty), and exits with code 1. -/
theorem c8_no_device_amended (env : NameEnv) (himp : env.importOk = true) :
    (∀ e, env.create_using_usbmux = .error e →
      runName env = (.errMsg "NO_DEVICE" e, 1)) ∧
    (∀ (lockdown : Lockdown) (e : String), env.create_using_usbmux = .ok lockdown →
      lockdown.display_name = .error e →
      runName env = (.errMsg "NO_DEVICE" e, 1)) ∧
    (∀ (lockdown : Lockdown) (dn : PyValue) (e : String),
      env.create_using_usbmux = .ok lockdown →
      lockdown.display_name = .ok dn → dn.truthy = false →
      lockdown.get_value "DeviceName" = .error e →
      runName env = (.errMsg "NO_DEVICE" e, 1)) ∧
    (∀ (lockdown : Lockdown) (n : PyValue) (e : String),
      env.create_using_usbmux = .ok lockdown →
      displayNameOr lockdown = .ok n →
      lockdown.get_value "ProductType" = .error e →
      runName env = (.errMsg "NO_DEVICE" e, 1)) := by
  refine ⟨?_, ?_, ?_, ?_⟩
  · intro e hconn
    simp [runName, get_device_name, himp, hconn]
  · intro lockdown e hconn hdn
    simp [runName, get_device_name, displayNameOr, himp, hconn, hdn]
  · intro lockdown dn e hconn hdn hfalsy hdv
    simp [runName, get_device_name, displayNameOr, himp, hconn, hdn, hfalsy, hdv]
  · intro lockdown n e hconn hdno hpt
    simp [runName, get_device_name, himp, hconn, hdno, hpt]

/-- Identity-query environment for the amended C8 witness: the connection
raises with a diagnostic text. -/
def c8Env : NameEnv where
  importOk := true
  create_using_usbmux := .error "ERROR_NO_DEVICE_CONNECTED"

/-- Witness for amended C8: a raising connection yields the NO_DEVICE
record carrying the exception text, with exit code 1. -/
theorem c8_no_device_amended_witness :
    runName c8Env = (.errMsg "NO_DEVICE" "ERROR_NO_DEVICE_CONNECTED", 1) :=
  (c8_no_device_amended c8Env rfl).1 "ERROR_NO_DEVICE_CONNECTED" rfl

/-- C9: when the pymobiledevice3 import fails the identity query prints the
one-field record `{'error': 'NO_PYMOBILEDEVICE3'}` and exits 1, whatever
the rest of the environment would do — the result is unchanged under any
replacement of the connection behaviour, so no connection is attempted. -/
theorem c9_name_import_failure (env : NameEnv) (h : env.importOk = false) :
    runName env = (.errOnly "NO_PYMOBILEDEVICE3", 1) ∧
    ∀ conn, runName { env with create_using_usbmux := conn } =
      (.errOnly "NO_PYMOBILEDEVICE3", 1) := by
  constructor
  · simp [runName, h]
  · intro conn
    simp [runName, h]

/-- Identity-query environment for the C9 witness. -/
def c9Env : NameEnv where
  importOk := false
  create_using_usbmux := .error "ImportError: no module named pymobiledevice3"

/-- Witness for C9: the failing import yields the one-field error record
with exit code 1. -/
theorem c9_name_import_failure_witness :
    runName c9Env = (.errOnly "NO_PYMOBILEDEVICE3", 1) :=
  (c9_name_import_failure c9Env rfl).1

/-- Lockdown model refuting the null-name part of C10: both the display
name and the `DeviceName` property are the empty string (falsy but not
`None`). -/
def c10BadLockdown : Lockdown where
  display_name := .ok (.str "")
  get_value := fun k =>
    if k = "DeviceName" then .ok (.str "")
    else if k = "ProductType" then .ok (.str "iPhone14,2")
    else .error "unknown key"

/-- Identity-query environment refuting the null-name part of C10. -/
def c10BadEnv : NameEnv where
  importOk := true
  create_using_usbmux := .ok c10BadLockdown

/-- Counterexample for C10: when the falsy `DeviceName` value is the empty
string, Python's `or` yields that string, so the printed `name` is the
empty string — a string, not JSON null. -/
theorem c10_counterexample :
    runName c10BadEnv = (.success (.str "") (.str "iPhone14,2"), 0) ∧
    PyValue.str "" ≠ PyValue.none := by
  constructor
  · rfl
  · decide

/-- Amended C10: when the display name is falsy and the `DeviceName` read
returns a falsy value `v`, the run still prints a success record with exit
code 0 whose `name` is exactly `v` — JSON null when `v` is `None`, the
empty string when `v` is the empty string. -/
theorem c10_falsy_name_amended (env : NameEnv) (lockdown : Lockdown)
    (dn v pt : PyValue)
    (himp : env.importOk = true)
    (hconn : env.create_using_usbmux = .ok lockdown)
    (hdn : lockdown.display_name = .ok dn)
    (hdnf : dn.truthy = false)
    (hdv : lockdown.get_value "DeviceName" = .ok v)
    (hvf : v.truthy = false)
    (hpt : lockdown.get_value "ProductType" = .ok pt) :
    runName env = (.success v (pyOr pt (.str "iOS Device")), 0) := by
  simp [runName, get_device_name, displayNameOr, himp, hconn, hdn, hdnf, hdv, hpt]

/-- Lockdown model for the amended C10 witness: both name sources return
`None`. -/
def c10Lockdown : Lockdown where
  display_name := .ok .none
  get_value := fun k =>
    if k = "DeviceName" then .ok .none
    else if k = "ProductType" then .ok (.str "iPhone14,2")
    else .error "unknown key"

/-- Identity-query environment for the amended C10 witness. -/
def c10Env : NameEnv where
  importOk := true
  create_using_usbmux := .ok c10Lockdown

/-- Witness for amended C10: with both name sources returning `None`, the
run prints a success record whose `name` is null, with exit code 0. -/
theorem c10_falsy_name_amended_witness :
    runName c10Env = (.success .none (.str "iPhone14,2"), 0) := by
  have h := c10_falsy_name_amended c10Env c10Lockdown .none .none (.str "iPhone14,2")
    rfl rfl rfl rfl (by rfl) rfl (by rfl)
  rw [h]
  rfl

end RedshiftScripts
